import Mathlib

/-!
Shallow embedding of the persistence core of the darkforge repository
(crate `lib/data`, module `store::sql` and its `sqlite` backend), together
with theorems settling the specification claims about it.

Machine integers are embedded as `Nat` (unsigned) and `Int` (signed) with
explicit range hypotheses where the width matters.  Pointer-width integers
(`usize`/`isize`) are embedded at 8 bytes (64-bit platform), and the
platform-native byte order of `to_ne_bytes` is embedded as little-endian,
matching the spec's "little-endian (or platform-native)" convention.
Floating-point payloads are carried as opaque bit patterns, since no claim
depends on float arithmetic.  External collaborator behaviour (the libsql
driver's scalar-to-native-value conversions, the pool runner, the migration
runner, the identifier parser) is modelled from the spec's description of
the boundary contracts; the repository's own code is translated directly.
-/

namespace DarkForge

/-- Little-endian byte encoding of a natural number at a fixed width `w`
(bytes, least significant first); embeds Rust's `to_ne_bytes` on a
little-endian platform. -/
def natToLEBytes : Nat → Nat → List Nat
  | 0, _ => []
  | w + 1, n => (n % 256) :: natToLEBytes w (n / 256)

/-- Little-endian byte decoding of a natural number; embeds
`from_ne_bytes` for unsigned integers on a little-endian platform. -/
def natFromLEBytes : List Nat → Nat
  | [] => 0
  | b :: bs => b + 256 * natFromLEBytes bs

/-- Fixed-width two's-complement little-endian encoding of a signed
integer; embeds `to_ne_bytes` for `i128`/`isize`. -/
def intToLEBytes (w : Nat) (v : Int) : List Nat :=
  natToLEBytes w (Int.toNat (v % ((2 : Int) ^ (8 * w))))

/-- Fixed-width two's-complement little-endian decoding of a signed
integer; embeds `from_ne_bytes` for `i128`/`isize`. -/
def intFromLEBytes (w : Nat) (bs : List Nat) : Int :=
  if natFromLEBytes bs < 2 ^ (8 * w - 1) then (natFromLEBytes bs : Int)
  else (natFromLEBytes bs : Int) - (2 : Int) ^ (8 * w)

/-- The identifier wrapper from `src/crates/lib/data/src/uuid.rs`: a thin
wrapper around the external `uuid::Uuid`, embedded as its raw 16-byte
representation (most significant byte first, as `uuid::Uuid::as_bytes`
returns). -/
structure Uuid where
  bytes : List Nat
deriving DecidableEq, Repr

/-- The big-endian 16-byte representation of a 128-bit integer; embeds the
external `uuid::Uuid::from_u128` constructor (field-order bytes). -/
def uuidBytesOfU128 (n : Nat) : List Nat :=
  (natToLEBytes 16 n).reverse

/-- `UuidError` from `src/crates/lib/data/src/uuid.rs`. -/
inductive UuidError where
  | ParseError (msg : String)
deriving DecidableEq, Repr

/-- Opaque float payload: a 32- or 64-bit pattern.  The adapter only moves
these across the boundary, never computes with them. -/
inductive FRep where
  | f32 (bits : Nat)
  | f64 (bits : Nat)
deriving DecidableEq, Repr

/-- `Param` from `src/crates/lib/data/src/store/sql/mod.rs`: the closed set
of scalar parameter kinds. -/
inductive Param where
  | Null
  | U8 (v : Nat)
  | U16 (v : Nat)
  | U32 (v : Nat)
  | U64 (v : Nat)
  | U128 (v : Nat)
  | USize (v : Nat)
  | I8 (v : Int)
  | I16 (v : Int)
  | I32 (v : Int)
  | I64 (v : Int)
  | I128 (v : Int)
  | ISize (v : Int)
  | F32 (bits : Nat)
  | F64 (bits : Nat)
  | String (s : String)
  | Bytes (b : List Nat)
  | Uuid (u : Uuid)
deriving DecidableEq, Repr

/-- `Params` from `src/crates/lib/data/src/store/sql/mod.rs`: the three
parameter shapes. -/
inductive Params where
  | None
  | Positional (ps : List Param)
  | Named (nps : List (String × Param))
deriving DecidableEq, Repr

/-- `SqlQuery` from `src/crates/lib/data/src/store/sql/mod.rs`. -/
structure SqlQuery where
  query : String
  params : Params
deriving DecidableEq, Repr

/-- `SqlQuery::new` from `src/crates/lib/data/src/store/sql/mod.rs`. -/
def SqlQuery.new (query : String) (params : Params) : SqlQuery :=
  { query := query, params := params }

/-- Expansion of the text-only arm of the `sql!` macro:
`sql!(t)` expands to `SqlQuery::new(t, Params::None)`. -/
def sqlMacroText (t : String) : SqlQuery :=
  SqlQuery.new t Params.None

/-- Expansion of the positional arm of the `sql!` macro:
`sql!(t, p1, .., pn)` expands to
`SqlQuery::new(t, Params::Positional(vec![p1.into(), .., pn.into()]))`;
the element conversions are the `From` instances embedded below. -/
def sqlMacroPositional (t : String) (ps : List Param) : SqlQuery :=
  SqlQuery.new t (Params.Positional ps)

/-- Expansion of the named arm of the `sql!` macro:
`sql!(t, {k1 => v1, ..})` expands to
`SqlQuery::new(t, Params::Named(vec![(k1.into(), v1.into()), ..]))`.
The macro's named arm syntactically requires at least one pair; the
expansion template is the same for any pair list. -/
def sqlMacroNamed (t : String) (nps : List (String × Param)) : SqlQuery :=
  SqlQuery.new t (Params.Named nps)

/-- The external libsql driver's error type, kept abstract: only its
identity matters to the store layer. -/
structure LibsqlError where
  msg : String
deriving DecidableEq, Repr

/-- The external pool runner's error type (`bb8::RunError<libsql::Error>`):
either an error from the user-supplied manager or a checkout timeout. -/
inductive RunError where
  | User (e : LibsqlError)
  | TimedOut
deriving DecidableEq, Repr

/-- The external row-deserializer's error type
(`serde::de::value::Error`), kept abstract. -/
structure SerdeError where
  msg : String
deriving DecidableEq, Repr

/-- The external migration runner's error type
(`libsql_migration::errors::LibsqlDirMigratorError`), kept abstract. -/
structure LibsqlDirMigratorError where
  msg : String
deriving DecidableEq, Repr

/-- `MigrationError` from
`src/crates/lib/data/src/store/sql/sqlite/migration.rs`: a connection-level
failure or a script-application failure, each wrapping its cause. -/
inductive MigrationError where
  | ConnectionError (e : LibsqlError)
  | DatabaseError (e : LibsqlDirMigratorError)
deriving DecidableEq, Repr

/-- `SqliteError` from `src/crates/lib/data/src/store/sql/sqlite/mod.rs`. -/
inductive SqliteError where
  | LibSql (e : LibsqlError)
  | Connection (e : RunError)
  | Deserialization (e : SerdeError)
  | MigrationErr (e : MigrationError)
deriving DecidableEq, Repr

/-- The external libsql driver's native tagged value (`libsql::Value`):
null, 64-bit integer, floating-point, text, or blob. -/
inductive Value where
  | Null
  | Integer (i : Int)
  | Real (r : FRep)
  | Text (t : String)
  | Blob (b : List Nat)
deriving DecidableEq, Repr

/-- `into_value` for `&Param` from
`src/crates/lib/data/src/store/sql/sqlite/store.rs` lines 46-68.  The
per-scalar `IntoValue` conversions it delegates to live in the external
libsql driver; they are modelled from the spec's marshalling table
(integers of width at most 64 bits become the native integer of the same
numeric value, floats become the native floating-point value, strings text,
byte sequences blobs, with no conversion error at this layer).  The
repository's own arms are translated directly: 128-bit and pointer-width
integers go through `to_ne_bytes` (fixed-width native-endian bytes, here
little-endian), strings and byte vectors are cloned, and the identifier's
raw 16 bytes are taken by `as_bytes`. -/
def Param.into_value : Param → Except LibsqlError Value
  | .Null => .ok .Null
  | .U8 v => .ok (.Integer (v : Int))
  | .U16 v => .ok (.Integer (v : Int))
  | .U32 v => .ok (.Integer (v : Int))
  | .U64 v => .ok (.Integer (v : Int))
  | .U128 v => .ok (.Blob (natToLEBytes 16 v))
  | .USize v => .ok (.Blob (natToLEBytes 8 v))
  | .I8 v => .ok (.Integer v)
  | .I16 v => .ok (.Integer v)
  | .I32 v => .ok (.Integer v)
  | .I64 v => .ok (.Integer v)
  | .I128 v => .ok (.Blob (intToLEBytes 16 v))
  | .ISize v => .ok (.Blob (intToLEBytes 8 v))
  | .F32 bits => .ok (.Real (.f32 bits))
  | .F64 bits => .ok (.Real (.f64 bits))
  | .String s => .ok (.Text s)
  | .Bytes b => .ok (.Blob b)
  | .Uuid u => .ok (.Blob u.bytes)

/-- The native value a `Param` marshals to; companion to
`Param.into_value`, which never returns an error (see
`into_value_eq_native`). -/
def Param.native : Param → Value
  | .Null => .Null
  | .U8 v => .Integer (v : Int)
  | .U16 v => .Integer (v : Int)
  | .U32 v => .Integer (v : Int)
  | .U64 v => .Integer (v : Int)
  | .U128 v => .Blob (natToLEBytes 16 v)
  | .USize v => .Blob (natToLEBytes 8 v)
  | .I8 v => .Integer v
  | .I16 v => .Integer v
  | .I32 v => .Integer v
  | .I64 v => .Integer v
  | .I128 v => .Blob (intToLEBytes 16 v)
  | .ISize v => .Blob (intToLEBytes 8 v)
  | .F32 bits => .Real (.f32 bits)
  | .F64 bits => .Real (.f64 bits)
  | .String s => .Text s
  | .Bytes b => .Blob b
  | .Uuid u => .Blob u.bytes

/-- The external libsql driver's bound-parameter form
(`libsql::params::Params`). -/
inductive NativeParams where
  | None
  | Positional (vs : List Value)
  | Named (nvs : List (String × Value))
deriving DecidableEq, Repr

/-- `to_params` from
`src/crates/lib/data/src/store/sql/sqlite/store.rs` lines 71-91: translates
the query's `Params` into the driver's native bound-value form, pushing
marshalled values in iteration order and propagating the first marshalling
error (lifted into `SqliteError::LibSql` by the `?` conversion). -/
def SqlQuery.to_params (q : SqlQuery) : Except SqliteError NativeParams :=
  match q.params with
  | .None => .ok .None
  | .Positional p => do
      let vs ← p.mapM (fun param => param.into_value.mapError SqliteError.LibSql)
      pure (.Positional vs)
  | .Named np => do
      let nvs ← np.mapM (fun kv => do
          let v ← kv.2.into_value.mapError SqliteError.LibSql
          pure (kv.1, v))
      pure (.Named nvs)

/-- A native result row returned by the driver, kept abstract as a cell
list (the decoder is what claims quantify over). -/
structure Row where
  cells : List (String × Value)
deriving DecidableEq, Repr

/-- The row-decoding loop of `Query::run`
(`src/crates/lib/data/src/store/sql/sqlite/store.rs` lines 98-103): decode
rows in order, aborting with `SqliteError::Deserialization` at the first
row the deserializer rejects, discarding any already-decoded rows. -/
def decodeRows {T : Type} (dec : Row → Except SerdeError T) :
    List Row → Except SqliteError (List T)
  | [] => .ok []
  | r :: rs =>
    match dec r with
    | .error e => .error (.Deserialization e)
    | .ok v => (decodeRows dec rs).map (fun vs => v :: vs)

/-- `Query::run` for `SqlQuery` against `SqliteStore`
(`src/crates/lib/data/src/store/sql/sqlite/store.rs` lines 93-105).  The
asynchronous pool checkout and the driver execution are oracles:
`getConn` is the outcome of `store.pool.get()` (a connection handle or a
`bb8::RunError`, lifted into `SqliteError::Connection` by `?`), and `exec`
is the outcome of `conn.query` together with the `rows.next()` stream (the
full row list, or the first `libsql::Error`, lifted into
`SqliteError::LibSql`).  Rows are then decoded by `decodeRows`.  No step
retries: each `?` returns the first error encountered. -/
def SqlQuery.run {T : Type} (q : SqlQuery)
    (getConn : Except RunError Nat)
    (exec : Nat → String → NativeParams → Except LibsqlError (List Row))
    (dec : Row → Except SerdeError T) : Except SqliteError (List T) :=
  match getConn with
  | .error e => .error (.Connection e)
  | .ok conn =>
    match q.to_params with
    | .error e => .error e
    | .ok ps =>
      match exec conn q.query ps with
      | .error e => .error (.LibSql e)
      | .ok rows => decodeRows dec rows

/-- A pooled connection, modelled by its observable behaviour: the outcome
of executing a statement text (rows-changed count, or the driver error). -/
def Conn := String → Except LibsqlError Nat

/-- `ManageConnection::is_valid` for `LibSqlConnectionManager`
(`src/crates/lib/data/src/store/sql/sqlite/pool.rs` lines 31-33): executes
the round-trip statement `SELECT 1;` on the connection and maps a
successful outcome to unit. -/
def LibSqlConnectionManager.is_valid (conn : Conn) : Except LibsqlError Unit :=
  (conn "SELECT 1;").map (fun _ => ())

/-- `ManageConnection::has_broken` for `LibSqlConnectionManager`
(`src/crates/lib/data/src/store/sql/sqlite/pool.rs` lines 36-38): ignores
the connection and returns `false`. -/
def LibSqlConnectionManager.has_broken (_ : Conn) : Bool :=
  false

/-- `Migrator::apply` for `SqliteMigrator`
(`src/crates/lib/data/src/store/sql/sqlite/migration.rs` lines 49-54).
The external steps are oracles: `connect` is the outcome of
`self.db.connect()` (its `libsql::Error` is lifted into
`MigrationError::ConnectionError` by `?`), and `migrate` is the outcome of
`libsql_migration::dir::migrate` on that connection and the path (its
error lifted into `MigrationError::DatabaseError`).  Success is `Ok(())`
only when both steps succeed. -/
def SqliteMigrator.apply
    (connect : Except LibsqlError Nat)
    (migrate : Nat → String → Except LibsqlDirMigratorError Unit)
    (path : String) : Except MigrationError Unit :=
  match connect with
  | .error e => .error (.ConnectionError e)
  | .ok conn =>
    match migrate conn path with
    | .error e => .error (.DatabaseError e)
    | .ok _ => .ok ()

/-- `From<u8> for Param`, generated by `implement_into_param!(U8 => u8)` in
`src/crates/lib/data/src/store/sql/mod.rs`: wraps the value in its tag. -/
def Param.from_u8 (v : Nat) : Param := .U8 v

/-- `From<u16> for Param` (`implement_into_param!(U16 => u16)`). -/
def Param.from_u16 (v : Nat) : Param := .U16 v

/-- `From<u32> for Param` (`implement_into_param!(U32 => u32)`). -/
def Param.from_u32 (v : Nat) : Param := .U32 v

/-- `From<u64> for Param` (`implement_into_param!(U64 => u64)`). -/
def Param.from_u64 (v : Nat) : Param := .U64 v

/-- `From<u128> for Param` (`implement_into_param!(U128 => u128)`). -/
def Param.from_u128 (v : Nat) : Param := .U128 v

/-- `From<usize> for Param` (`implement_into_param!(USize => usize)`). -/
def Param.from_usize (v : Nat) : Param := .USize v

/-- `From<i8> for Param` (`implement_into_param!(I8 => i8)`). -/
def Param.from_i8 (v : Int) : Param := .I8 v

/-- `From<i16> for Param` (`implement_into_param!(I16 => i16)`). -/
def Param.from_i16 (v : Int) : Param := .I16 v

/-- `From<i32> for Param` (`implement_into_param!(I32 => i32)`). -/
def Param.from_i32 (v : Int) : Param := .I32 v

/-- `From<i64> for Param` (`implement_into_param!(I64 => i64)`). -/
def Param.from_i64 (v : Int) : Param := .I64 v

/-- `From<i128> for Param` (`implement_into_param!(I128 => i128)`). -/
def Param.from_i128 (v : Int) : Param := .I128 v

/-- `From<isize> for Param` (`implement_into_param!(ISize => isize)`). -/
def Param.from_isize (v : Int) : Param := .ISize v

/-- `From<f32> for Param` (`implement_into_param!(F32 => f32)`), on the
opaque bit-pattern embedding of floats. -/
def Param.from_f32 (bits : Nat) : Param := .F32 bits

/-- `From<f64> for Param` (`implement_into_param!(F64 => f64)`). -/
def Param.from_f64 (bits : Nat) : Param := .F64 bits

/-- Alias for the string type, needed because inside the `Param` namespace
the bare name resolves to the constructor of the same name. -/
abbrev Str := String

/-- `From<String> for Param` (`implement_into_param!(String => String)`):
wraps the owned string. -/
def Param.from_string (s : Str) : Param := .String s

/-- `From<Vec<u8>> for Param` (`implement_into_param!(Bytes => Vec<u8>)`). -/
def Param.from_bytes (b : List Nat) : Param := .Bytes b

/-- `From<Uuid> for Param` (`implement_into_param!(Uuid => Uuid)`). -/
def Param.from_uuid (u : DarkForge.Uuid) : Param := .Uuid u

/-- `From<&str> for Param` from
`src/crates/lib/data/src/store/sql/mod.rs` lines 134-138: copies the slice
into an owned string (`value.to_string()`) and wraps it in the string
tag. A borrowed slice and its owned copy have the same contents, so both
are embedded as the Lean string. -/
def Param.from_str (s : Str) : Param := .String s

/-- The numeric value of a hexadecimal digit, if the character is one. -/
def hexDigitVal (c : Char) : Option Nat :=
  if ('0' ≤ c ∧ c ≤ '9') then some (c.toNat - '0'.toNat)
  else if ('a' ≤ c ∧ c ≤ 'f') then some (c.toNat - 'a'.toNat + 10)
  else if ('A' ≤ c ∧ c ≤ 'F') then some (c.toNat - 'A'.toNat + 10)
  else none

/-- Pairs up a list of hex-digit values into bytes, high nibble first. -/
def hexPairsToBytes : List Nat → List Nat
  | a :: b :: rest => (16 * a + b) :: hexPairsToBytes rest
  | _ => []

/-- Modelled from the spec: the external identifier parser
(`uuid::Uuid::parse_str`) used by the string `TryFrom` constructors is not
part of this repository; per the spec, "textual interchange (e.g.,
hyphenated string form) is the responsibility of the identifier type
itself".  The parser accepts the hexadecimal textual form of a 128-bit
identifier (optionally hyphenated, either case) and rejects any other
string. -/
def uuidParseStr (s : String) : Except UuidError Uuid :=
  let ds := s.data.filter (fun c => c ≠ '-')
  match ds.mapM hexDigitVal with
  | none => .error (.ParseError s)
  | some vals =>
    if vals.length = 32 then .ok ⟨hexPairsToBytes vals⟩
    else .error (.ParseError s)

/-- `TryFrom<[u8; 16]> for Uuid` from
`src/crates/lib/data/src/uuid.rs` lines 31-38: unconditionally wraps the
byte array (`uuid::Uuid::from_bytes` is infallible) in `Ok`. -/
def Uuid.try_from_bytes (b : List Nat) : Except UuidError Uuid :=
  .ok ⟨b⟩

/-- `TryFrom<u128> for Uuid` from
`src/crates/lib/data/src/uuid.rs` lines 58-65: unconditionally wraps
`uuid::Uuid::from_u128` (the big-endian 16-byte representation) in `Ok`. -/
def Uuid.try_from_u128 (n : Nat) : Except UuidError Uuid :=
  .ok ⟨uuidBytesOfU128 n⟩

/-- `TryFrom<String> for Uuid` from
`src/crates/lib/data/src/uuid.rs` lines 40-47: parses the string, wrapping
a parse failure in `UuidError::ParseError`. -/
def Uuid.try_from_string (s : String) : Except UuidError Uuid :=
  uuidParseStr s

/-- `TryFrom<&str> for Uuid` from
`src/crates/lib/data/src/uuid.rs` lines 49-56: same as the owned-string
constructor. -/
def Uuid.try_from_str (s : String) : Except UuidError Uuid :=
  uuidParseStr s

theorem natFromLEBytes_natToLEBytes (w : Nat) (n : Nat) (h : n < 256 ^ w) :
    natFromLEBytes (natToLEBytes w n) = n := by
  induction w generalizing n with
  | zero =>
    simp only [pow_zero, Nat.lt_one_iff] at h
    simp [natToLEBytes, natFromLEBytes, h]
  | succ w ih =>
    have hdiv : n / 256 < 256 ^ w := by
      apply Nat.div_lt_of_lt_mul
      rw [pow_succ] at h
      omega
    simp only [natToLEBytes, natFromLEBytes, ih (n / 256) hdiv]
    omega

theorem intFromLEBytes_intToLEBytes (w : Nat) (hw : 1 ≤ w) (v : Int)
    (h1 : -((2 : Int) ^ (8 * w - 1)) ≤ v) (h2 : v < (2 : Int) ^ (8 * w - 1)) :
    intFromLEBytes w (intToLEBytes w v) = v := by
  have hsucc : 8 * w = (8 * w - 1) + 1 := by omega
  have hsplit : (2 : Int) ^ (8 * w) = 2 * 2 ^ (8 * w - 1) := by
    nth_rewrite 1 [hsucc]
    rw [pow_succ]; ring
  have hPpos : (0 : Int) < 2 ^ (8 * w - 1) := by positivity
  have hMpos : (0 : Int) < 2 ^ (8 * w) := by positivity
  have hres : v % (2 : Int) ^ (8 * w) =
      if 0 ≤ v then v else v + 2 ^ (8 * w) := by
    by_cases hv : 0 ≤ v
    · simp only [hv, if_true]
      exact Int.emod_eq_of_lt hv (by rw [hsplit]; linarith)
    · simp only [hv, if_false]
      have hvneg : v < 0 := Int.lt_of_not_ge hv
      have heq : v % (2 : Int) ^ (8 * w) = (v + 2 ^ (8 * w) * 1) % 2 ^ (8 * w) := by
        rw [Int.add_mul_emod_self_left]
      rw [heq, mul_one]
      apply Int.emod_eq_of_lt
      · rw [hsplit]; linarith
      · linarith
  have hcast : ((Int.toNat (v % (2 : Int) ^ (8 * w)) : Nat) : Int) =
      v % (2 : Int) ^ (8 * w) :=
    Int.toNat_of_nonneg (Int.emod_nonneg v (by positivity))
  have hcastP : (((2 : Nat) ^ (8 * w - 1) : Nat) : Int) = (2 : Int) ^ (8 * w - 1) := by
    push_cast; ring
  have hnlt : Int.toNat (v % (2 : Int) ^ (8 * w)) < 256 ^ w := by
    have hlt : v % (2 : Int) ^ (8 * w) < 2 ^ (8 * w) :=
      Int.emod_lt_of_pos v hMpos
    have hpow : (((256 : Nat) ^ w : Nat) : Int) = (2 : Int) ^ (8 * w) := by
      push_cast
      rw [show ((256 : Int)) = 2 ^ 8 by norm_num, ← pow_mul]
    have hfin : ((Int.toNat (v % (2 : Int) ^ (8 * w)) : Nat) : Int) <
        (((256 : Nat) ^ w : Nat) : Int) := by
      rw [hcast, hpow]; exact hlt
    exact_mod_cast hfin
  simp only [intFromLEBytes, intToLEBytes,
    natFromLEBytes_natToLEBytes w (Int.toNat (v % (2 : Int) ^ (8 * w))) hnlt]
  by_cases hv : 0 ≤ v
  · have hnv : ((Int.toNat (v % (2 : Int) ^ (8 * w)) : Nat) : Int) = v := by
      rw [hcast, hres, if_pos hv]
    have hcond : Int.toNat (v % (2 : Int) ^ (8 * w)) < 2 ^ (8 * w - 1) := by
      have hx : ((Int.toNat (v % (2 : Int) ^ (8 * w)) : Nat) : Int) <
          (((2 : Nat) ^ (8 * w - 1) : Nat) : Int) := by
        rw [hnv, hcastP]; exact h2
      exact_mod_cast hx
    rw [if_pos hcond, hnv]
  · have hvneg : v < 0 := Int.lt_of_not_ge hv
    have hnv : ((Int.toNat (v % (2 : Int) ^ (8 * w)) : Nat) : Int) = v + 2 ^ (8 * w) := by
      rw [hcast, hres, if_neg hv]
    have hcond : ¬ Int.toNat (v % (2 : Int) ^ (8 * w)) < 2 ^ (8 * w - 1) := by
      intro hx
      have hx2 : ((Int.toNat (v % (2 : Int) ^ (8 * w)) : Nat) : Int) <
          (((2 : Nat) ^ (8 * w - 1) : Nat) : Int) := by exact_mod_cast hx
      rw [hnv, hcastP] at hx2
      rw [hsplit] at hnv
      linarith
    rw [if_neg hcond, hnv]
    ring

theorem into_value_eq_native (p : Param) : p.into_value = .ok p.native := by
  cases p <;> rfl

theorem mapM_into_value_ok (ps : List Param) :
    ps.mapM (fun param => param.into_value.mapError SqliteError.LibSql) =
      .ok (ps.map Param.native) := by
  induction ps with
  | nil => rfl
  | cons p ps ih =>
    rw [List.mapM_cons, ih, into_value_eq_native]
    rfl

theorem mapM_named_into_value_ok (nps : List (String × Param)) :
    nps.mapM (fun kv => do
        let v ← kv.2.into_value.mapError SqliteError.LibSql
        pure (kv.1, v)) =
      Except.ok (nps.map (fun kv => (kv.1, kv.2.native))) := by
  induction nps with
  | nil => rfl
  | cons kv nps ih =>
    rw [List.mapM_cons, ih, into_value_eq_native]
    rfl

theorem to_params_none (t : String) :
    (SqlQuery.new t Params.None).to_params = .ok .None := rfl

theorem to_params_positional (t : String) (ps : List Param) :
    (SqlQuery.new t (Params.Positional ps)).to_params =
      .ok (.Positional (ps.map Param.native)) := by
  simp only [SqlQuery.to_params, SqlQuery.new, mapM_into_value_ok]
  rfl

theorem to_params_named (t : String) (nps : List (String × Param)) :
    (SqlQuery.new t (Params.Named nps)).to_params =
      .ok (.Named (nps.map (fun kv => (kv.1, kv.2.native)))) := by
  simp only [SqlQuery.to_params, SqlQuery.new, mapM_named_into_value_ok]
  rfl

theorem to_params_isOk (q : SqlQuery) : ∃ nps, q.to_params = .ok nps := by
  obtain ⟨t, p⟩ := q
  cases p with
  | None => exact ⟨_, to_params_none t⟩
  | Positional ps => exact ⟨_, to_params_positional t ps⟩
  | Named nps => exact ⟨_, to_params_named t nps⟩

theorem decodeRows_first_error {T : Type} (dec : Row → Except SerdeError T)
    (rows1 : List Row) (r : Row) (rows2 : List Row) (e : SerdeError)
    (hok : ∀ r0 ∈ rows1, ∃ v, dec r0 = .ok v) (herr : dec r = .error e) :
    decodeRows dec (rows1 ++ r :: rows2) = .error (.Deserialization e) := by
  induction rows1 with
  | nil =>
    simp only [List.nil_append, decodeRows, herr]
  | cons r1 rows1 ih =>
    obtain ⟨v, hv⟩ := hok r1 (List.mem_cons_self r1 rows1)
    have hrest : ∀ r0 ∈ rows1, ∃ v0, dec r0 = .ok v0 :=
      fun r0 hr0 => hok r0 (List.mem_cons_of_mem r1 hr0)
    simp only [List.cons_append, decodeRows, hv, List.append_eq, ih hrest]
    rfl

/-- C1: for every 128-bit integer value (u128 or i128) and every
pointer-width integer value (usize or isize), marshalling the
corresponding `Param` to native form yields a byte-sequence native value
equal to the value's fixed-width platform-native byte representation, and
decoding that byte sequence with the same fixed-width convention
(`from_ne_bytes` of the same width and signedness) reproduces the value
exactly. -/
theorem wide_int_marshal_roundtrip (vu vus : Nat) (vi vis : Int)
    (hu : vu < 2 ^ 128) (hus : vus < 2 ^ 64)
    (hi1 : -((2 : Int) ^ 127) ≤ vi) (hi2 : vi < (2 : Int) ^ 127)
    (his1 : -((2 : Int) ^ 63) ≤ vis) (his2 : vis < (2 : Int) ^ 63) :
    (Param.U128 vu).into_value = .ok (.Blob (natToLEBytes 16 vu)) ∧
    natFromLEBytes (natToLEBytes 16 vu) = vu ∧
    (Param.USize vus).into_value = .ok (.Blob (natToLEBytes 8 vus)) ∧
    natFromLEBytes (natToLEBytes 8 vus) = vus ∧
    (Param.I128 vi).into_value = .ok (.Blob (intToLEBytes 16 vi)) ∧
    intFromLEBytes 16 (intToLEBytes 16 vi) = vi ∧
    (Param.ISize vis).into_value = .ok (.Blob (intToLEBytes 8 vis)) ∧
    intFromLEBytes 8 (intToLEBytes 8 vis) = vis := by
  refine ⟨rfl, ?_, rfl, ?_, rfl, ?_, rfl, ?_⟩
  · exact natFromLEBytes_natToLEBytes 16 vu (by
      have h256 : (256 : Nat) ^ 16 = 2 ^ 128 := by norm_num
      rw [h256]; exact hu)
  · exact natFromLEBytes_natToLEBytes 8 vus (by
      have h256 : (256 : Nat) ^ 8 = 2 ^ 64 := by norm_num
      rw [h256]; exact hus)
  · exact intFromLEBytes_intToLEBytes 16 (by norm_num) vi
      (by simpa using hi1) (by simpa using hi2)
  · exact intFromLEBytes_intToLEBytes 8 (by norm_num) vis
      (by simpa using his1) (by simpa using his2)

/-- Witness for C1 at u128 = 12345, usize = 67, i128 = -7, isize = -3. -/
theorem wide_int_marshal_roundtrip_witness :
    (Param.U128 12345).into_value = .ok (.Blob (natToLEBytes 16 12345)) ∧
    natFromLEBytes (natToLEBytes 16 12345) = 12345 ∧
    (Param.USize 67).into_value = .ok (.Blob (natToLEBytes 8 67)) ∧
    natFromLEBytes (natToLEBytes 8 67) = 67 ∧
    (Param.I128 (-7)).into_value = .ok (.Blob (intToLEBytes 16 (-7))) ∧
    intFromLEBytes 16 (intToLEBytes 16 (-7)) = -7 ∧
    (Param.ISize (-3)).into_value = .ok (.Blob (intToLEBytes 8 (-3))) ∧
    intFromLEBytes 8 (intToLEBytes 8 (-3)) = -3 :=
  wide_int_marshal_roundtrip 12345 67 (-7) (-3) (by norm_num) (by norm_num)
    (by norm_num) (by norm_num) (by norm_num) (by norm_num)

/-- C2: for every unsigned or signed integer value of width at most 64
bits, marshalling the corresponding `Param` to the backend's native form
succeeds (returns no error) and yields a native integer value numerically
equal to the value. -/
theorem small_int_marshal (a b c d : Nat) (e f g h : Int)
    (_ha : a < 2 ^ 8) (_hb : b < 2 ^ 16) (_hc : c < 2 ^ 32) (_hd : d < 2 ^ 64)
    (_he1 : -((2 : Int) ^ 7) ≤ e) (_he2 : e < (2 : Int) ^ 7)
    (_hf1 : -((2 : Int) ^ 15) ≤ f) (_hf2 : f < (2 : Int) ^ 15)
    (_hg1 : -((2 : Int) ^ 31) ≤ g) (_hg2 : g < (2 : Int) ^ 31)
    (_hh1 : -((2 : Int) ^ 63) ≤ h) (_hh2 : h < (2 : Int) ^ 63) :
    (Param.U8 a).into_value = .ok (.Integer (a : Int)) ∧
    (Param.U16 b).into_value = .ok (.Integer (b : Int)) ∧
    (Param.U32 c).into_value = .ok (.Integer (c : Int)) ∧
    (Param.U64 d).into_value = .ok (.Integer (d : Int)) ∧
    (Param.I8 e).into_value = .ok (.Integer e) ∧
    (Param.I16 f).into_value = .ok (.Integer f) ∧
    (Param.I32 g).into_value = .ok (.Integer g) ∧
    (Param.I64 h).into_value = .ok (.Integer h) :=
  ⟨rfl, rfl, rfl, rfl, rfl, rfl, rfl, rfl⟩

/-- Witness for C2 at u8 = 200, u16 = 3, u32 = 4, u64 = 5, i8 = -6,
i16 = -7, i32 = -8, i64 = -9. -/
theorem small_int_marshal_witness :
    (Param.U8 200).into_value = .ok (.Integer 200) ∧
    (Param.U16 3).into_value = .ok (.Integer 3) ∧
    (Param.U32 4).into_value = .ok (.Integer 4) ∧
    (Param.U64 5).into_value = .ok (.Integer 5) ∧
    (Param.I8 (-6)).into_value = .ok (.Integer (-6)) ∧
    (Param.I16 (-7)).into_value = .ok (.Integer (-7)) ∧
    (Param.I32 (-8)).into_value = .ok (.Integer (-8)) ∧
    (Param.I64 (-9)).into_value = .ok (.Integer (-9)) :=
  small_int_marshal 200 3 4 5 (-6) (-7) (-8) (-9)
    (by norm_num) (by norm_num) (by norm_num) (by norm_num)
    (by norm_num) (by norm_num) (by norm_num) (by norm_num)
    (by norm_num) (by norm_num) (by norm_num) (by norm_num)

/-- C3: for every query text and every `Params` value, constructing a
`SqlQuery` — directly via `SqlQuery::new` or via the three call shapes of
the `sql!` helper — yields a value whose `query` field equals the text and
whose `params` field is structurally equal to the supplied shape:
text-only calls produce `Params::None`, text plus an ordered value list
produces `Params::Positional` in the given order, and text plus a
key/value block produces `Params::Named` with the given pairs. -/
theorem sqlquery_construction (t : String) (p : Params)
    (ps : List Param) (nps : List (String × Param)) :
    (SqlQuery.new t p).query = t ∧
    (SqlQuery.new t p).params = p ∧
    sqlMacroText t = SqlQuery.new t Params.None ∧
    sqlMacroPositional t ps = SqlQuery.new t (Params.Positional ps) ∧
    sqlMacroNamed t nps = SqlQuery.new t (Params.Named nps) :=
  ⟨rfl, rfl, rfl, rfl, rfl⟩

/-- C4: translating a `SqlQuery`'s parameters to the native bound-value
form preserves the `Params` shape and structure: `None` maps to the native
no-bindings form; `Positional` with n elements maps to a native positional
list of exactly n marshalled values in the same order; `Named` maps to a
native named list with the same names paired with the marshalled values,
in the same order. -/
theorem to_params_preserves_shape (t : String)
    (ps : List Param) (nps : List (String × Param)) :
    (SqlQuery.new t Params.None).to_params = .ok .None ∧
    (SqlQuery.new t (Params.Positional ps)).to_params =
      .ok (.Positional (ps.map Param.native)) ∧
    (ps.map Param.native).length = ps.length ∧
    (SqlQuery.new t (Params.Named nps)).to_params =
      .ok (.Named (nps.map (fun kv => (kv.1, kv.2.native)))) ∧
    (nps.map (fun kv => (kv.1, kv.2.native))).map Prod.fst = nps.map Prod.fst :=
  ⟨to_params_none t, to_params_positional t ps, List.length_map ps Param.native,
    to_params_named t nps, by simp⟩

/-- C6: marshalling `Param::Null` yields the native null; `Param::String`
yields a native text value with unchanged contents; `Param::Bytes` yields
a native blob with unchanged contents; and `Param::Uuid` yields a native
blob containing exactly the identifier's raw 16 bytes. -/
theorem null_text_blob_uuid_marshal (s : String) (b : List Nat) (u : Uuid) :
    Param.Null.into_value = .ok .Null ∧
    (Param.String s).into_value = .ok (.Text s) ∧
    (Param.Bytes b).into_value = .ok (.Blob b) ∧
    (Param.Uuid u).into_value = .ok (.Blob u.bytes) :=
  ⟨rfl, rfl, rfl, rfl⟩

/-- C5: connection-acquisition failure, execution failure, and
row-decoding failure surface from `Query::run` as the three distinct
variants `SqliteError::Connection`, `SqliteError::LibSql` and
`SqliteError::Deserialization` respectively, and `run` performs no
automatic retry: it returns the first error encountered — in particular a
decoding failure on any row aborts with an error rather than returning the
successfully decoded rows. -/
theorem run_error_taxonomy {T : Type} (q : SqlQuery) (conn : Nat)
    (e1 : RunError) (e2 : LibsqlError) (e3 : SerdeError)
    (exec : Nat → String → NativeParams → Except LibsqlError (List Row))
    (dec : Row → Except SerdeError T)
    (rows1 rows2 : List Row) (r : Row)
    (hok : ∀ r0 ∈ rows1, ∃ v, dec r0 = .ok v) (herr : dec r = .error e3) :
    q.run (.error e1) exec dec = .error (.Connection e1) ∧
    q.run (.ok conn) (fun _ _ _ => .error e2) dec = .error (.LibSql e2) ∧
    q.run (.ok conn) (fun _ _ _ => .ok (rows1 ++ r :: rows2)) dec =
      .error (.Deserialization e3) := by
  obtain ⟨nps, hnps⟩ := to_params_isOk q
  refine ⟨rfl, ?_, ?_⟩
  · simp only [SqlQuery.run, hnps]
  · simp only [SqlQuery.run, hnps]
    exact decodeRows_first_error dec rows1 r rows2 e3 hok herr

/-- Witness for C5: a query with no parameters, a decoder accepting empty
rows and rejecting non-empty ones, one good row followed by one bad row. -/
theorem run_error_taxonomy_witness :
    (SqlQuery.new "SELECT name FROM test" Params.None).run
        (.error (RunError.TimedOut))
        (fun _ _ _ => .ok [])
        (fun r => if r.cells = [] then Except.ok 0 else .error ⟨"bad"⟩) =
      .error (.Connection RunError.TimedOut) ∧
    (SqlQuery.new "SELECT name FROM test" Params.None).run
        (.ok 0) (fun _ _ _ => .error ⟨"no such table"⟩)
        (fun r => if r.cells = [] then Except.ok 0 else .error ⟨"bad"⟩) =
      .error (.LibSql ⟨"no such table"⟩) ∧
    (SqlQuery.new "SELECT name FROM test" Params.None).run
        (.ok 0)
        (fun _ _ _ => .ok ([⟨[]⟩] ++ ⟨[("name", Value.Null)]⟩ :: []))
        (fun r => if r.cells = [] then Except.ok 0 else .error ⟨"bad"⟩) =
      .error (.Deserialization ⟨"bad"⟩) :=
  run_error_taxonomy (SqlQuery.new "SELECT name FROM test" Params.None) 0
    RunError.TimedOut ⟨"no such table"⟩ ⟨"bad"⟩
    (fun _ _ _ => .ok [])
    (fun r => if r.cells = [] then Except.ok 0 else .error ⟨"bad"⟩)
    [⟨[]⟩] [] ⟨[("name", Value.Null)]⟩
    (by intro r0 hr0
        simp only [List.mem_singleton] at hr0
        subst hr0
        exact ⟨0, rfl⟩)
    (by simp)

/-- C7: the pool manager's `has_broken` check returns `false` for every
connection regardless of its actual state, and `is_valid` issues the
trivial round-trip query `SELECT 1;` and returns success exactly when that
query executes without error on the connection. -/
theorem pool_health_checks (conn : Conn) :
    LibSqlConnectionManager.has_broken conn = false ∧
    LibSqlConnectionManager.is_valid conn =
      (conn "SELECT 1;").map (fun _ => ()) ∧
    (LibSqlConnectionManager.is_valid conn).isOk = (conn "SELECT 1;").isOk := by
  refine ⟨rfl, rfl, ?_⟩
  unfold LibSqlConnectionManager.is_valid
  cases conn "SELECT 1;" <;> rfl

/-- C8: `Migrator::apply` returns `Ok(())` exactly when connecting
succeeded and the migration set applied without error; on failure it
returns a single wrapped cause distinguishing a connection-level failure
(`MigrationError::ConnectionError`) from a script-application failure
(`MigrationError::DatabaseError`), preserving the underlying error. -/
theorem migrator_apply_errors
    (connect : Except LibsqlError Nat)
    (migrate : Nat → String → Except LibsqlDirMigratorError Unit)
    (path : String) (el : LibsqlError) (ed : LibsqlDirMigratorError)
    (conn : Nat) (hm : migrate conn path = .error ed) :
    (SqliteMigrator.apply connect migrate path = .ok () ↔
      ∃ c, connect = .ok c ∧ migrate c path = .ok ()) ∧
    SqliteMigrator.apply (.error el) migrate path =
      .error (.ConnectionError el) ∧
    SqliteMigrator.apply (.ok conn) migrate path =
      .error (.DatabaseError ed) := by
  refine ⟨?_, rfl, ?_⟩
  · cases hc : connect with
    | error e => simp [SqliteMigrator.apply]
    | ok c =>
      cases hmc : migrate c path with
      | error e => simp [SqliteMigrator.apply, hmc]
      | ok u => simp [SqliteMigrator.apply, hmc]
  · simp [SqliteMigrator.apply, hm]

/-- Witness for C8: a migrate oracle that fails on connection 0 with a
script error, exercised at a failing connect and at a failing migrate. -/
theorem migrator_apply_errors_witness :
    (SqliteMigrator.apply (.ok 0) (fun _ _ => .error ⟨"bad script"⟩) "migrations" =
      .ok () ↔
      ∃ c, (Except.ok 0 : Except LibsqlError Nat) = Except.ok c ∧
        (Except.error ⟨"bad script"⟩ : Except LibsqlDirMigratorError Unit) =
          .ok ()) ∧
    SqliteMigrator.apply (.error ⟨"no db"⟩) (fun _ _ => .error ⟨"bad script"⟩)
      "migrations" = .error (.ConnectionError ⟨"no db"⟩) ∧
    SqliteMigrator.apply (.ok 0) (fun _ _ => .error ⟨"bad script"⟩)
      "migrations" = .error (.DatabaseError ⟨"bad script"⟩) := by
  exact migrator_apply_errors (.ok 0) (fun _ _ => .error ⟨"bad script"⟩)
    "migrations" ⟨"no db"⟩ ⟨"bad script"⟩ 0 rfl

/-- C9: converting a string slice to a `Param` yields `Param::String` with
the same contents and agrees with converting the owned string; and all the
scalar-to-`Param` conversions are total and pure — each is a function that
always yields the corresponding tagged value, with no failure case and no
observable side effect. -/
theorem param_conversions_total (s : String) (a b c d e usz : Nat)
    (i j k l m isz : Int) (f32b f64b : Nat) (bs : List Nat) (u : Uuid) :
    Param.from_str s = Param.String s ∧
    Param.from_str s = Param.from_string s ∧
    Param.from_u8 a = .U8 a ∧
    Param.from_u16 b = .U16 b ∧
    Param.from_u32 c = .U32 c ∧
    Param.from_u64 d = .U64 d ∧
    Param.from_u128 e = .U128 e ∧
    Param.from_usize usz = .USize usz ∧
    Param.from_i8 i = .I8 i ∧
    Param.from_i16 j = .I16 j ∧
    Param.from_i32 k = .I32 k ∧
    Param.from_i64 l = .I64 l ∧
    Param.from_i128 m = .I128 m ∧
    Param.from_isize isz = .ISize isz ∧
    Param.from_f32 f32b = .F32 f32b ∧
    Param.from_f64 f64b = .F64 f64b ∧
    Param.from_bytes bs = .Bytes bs ∧
    Param.from_uuid u = .Uuid u :=
  ⟨rfl, rfl, rfl, rfl, rfl, rfl, rfl, rfl, rfl, rfl, rfl, rfl, rfl, rfl,
    rfl, rfl, rfl, rfl⟩

/-- C10: the identifier wrapper's byte-array and 128-bit-integer
constructors are infallible despite their fallible signatures — for every
16-byte array and every u128 value they return `Ok` — while the
string-parsing constructor can actually return an error. -/
theorem uuid_constructors_infallible (b : List Nat) (n : Nat)
    (_hb : b.length = 16) (_hn : n < 2 ^ 128) :
    Uuid.try_from_bytes b = .ok ⟨b⟩ ∧
    Uuid.try_from_u128 n = .ok ⟨uuidBytesOfU128 n⟩ ∧
    ∃ s m, Uuid.try_from_string s = .error (.ParseError m) := by
  refine ⟨rfl, rfl, "", "", ?_⟩
  set_option maxRecDepth 4000 in rfl

/-- Witness for C10 at the zero 16-byte array and n = 5. -/
theorem uuid_constructors_infallible_witness :
    Uuid.try_from_bytes (List.replicate 16 0) = .ok ⟨List.replicate 16 0⟩ ∧
    Uuid.try_from_u128 5 = .ok ⟨uuidBytesOfU128 5⟩ ∧
    ∃ s m, Uuid.try_from_string s = .error (.ParseError m) :=
  uuid_constructors_infallible (List.replicate 16 0) 5 (by decide) (by norm_num)

end DarkForge
